import Mathlib

/-!
Verification of the jupiter-swap-api-client core
(src/jupiter-swap-api-client/src/lib.rs): the response
classifier `check_status_code_and_deserialize`, the error taxonomy
`JupiterError`, and the three client operations `quote`, `swap`,
`swap_instructions` of `JupiterSwapApiClient`.

The JSON layer (serde_json) is an external collaborator of the library;
we embed `serde_json::Value` as the inductive `Json` below together with
the exact operations the source calls on it: `get`, `as_str`, and the
`Display`-based `to_string` (compact JSON serialization). Raw response
bytes are only ever consumed by `serde_json::from_slice`, so a delivered
byte body is represented by its parse result `Except String Json`; a
body-read failure (`response.bytes().await` erring) is the outer
`Except String` layer of `Response.bytes`.
-/

set_option autoImplicit false

/-- Embedding of `serde_json::Value`: null, booleans, numbers (the claims
under verification only involve integral numbers, so numbers are `Int`),
strings, arrays and objects (ordered key-value lists). -/
inductive Json where
  | null : Json
  | bool : Bool → Json
  | num : Int → Json
  | str : String → Json
  | arr : List Json → Json
  | obj : List (String × Json) → Json

/-- `serde_json::Value::get(key)`: field lookup, `none` on non-objects. -/
def Json.get (j : Json) (key : String) : Option Json :=
  match j with
  | .obj kvs => List.lookup key kvs
  | _ => none

/-- `serde_json::Value::as_str()`: `some` exactly on JSON strings. -/
def Json.as_str : Json → Option String
  | .str s => some s
  | _ => none

/-- One character of serde_json string escaping: quote, backslash and the
common control characters get two-character escapes, other control
characters get a lowercase \uXXXX escape, everything else is unchanged. -/
def escapeChar (c : Char) : String :=
  if c = '"' then "\\\""
  else if c = '\\' then "\\\\"
  else if c = '\n' then "\\n"
  else if c = '\r' then "\\r"
  else if c = '\t' then "\\t"
  else if c.toNat = 8 then "\\b"
  else if c.toNat = 12 then "\\f"
  else if c.toNat < 32 then
    let hexDigit : Nat → Char := fun n => if n < 10 then Char.ofNat (48 + n) else Char.ofNat (87 + n)
    let n := c.toNat
    String.mk ['\\', 'u', hexDigit (n / 4096 % 16), hexDigit (n / 256 % 16), hexDigit (n / 16 % 16), hexDigit (n % 16)]
  else String.singleton c

/-- serde_json escaping of a whole string body (without the surrounding
quotes). -/
def escapeString (s : String) : String :=
  String.join (s.toList.map escapeChar)

mutual

/-- `serde_json::Value::to_string()` (the `Display` impl): compact JSON
serialization. In particular a JSON string value serializes WITH its
surrounding quotes, while a number serializes as its decimal digits. -/
def Json.to_string : Json → String
  | .null => "null"
  | .bool true => "true"
  | .bool false => "false"
  | .num n => toString n
  | .str s => "\"" ++ escapeString s ++ "\""
  | .arr xs => "[" ++ jsonArrBody xs ++ "]"
  | .obj kvs => "\x7b" ++ jsonObjBody kvs ++ "\x7d"

/-- Comma-separated serialization of array elements. -/
def jsonArrBody : List Json → String
  | [] => ""
  | [x] => Json.to_string x
  | x :: y :: rest => Json.to_string x ++ "," ++ jsonArrBody (y :: rest)

/-- Comma-separated serialization of object entries. -/
def jsonObjBody : List (String × Json) → String
  | [] => ""
  | [kv] => "\"" ++ escapeString kv.1 ++ "\":" ++ Json.to_string kv.2
  | kv :: kv2 :: rest =>
      "\"" ++ escapeString kv.1 ++ "\":" ++ Json.to_string kv.2 ++ "," ++ jsonObjBody (kv2 :: rest)

end

/-- The error taxonomy of lib.rs (`enum JupiterError`): `RequestFailed`
carries an HTTP status code (embedded as `Nat`) and a message,
`ApiError` carries the remote error code and message. -/
inductive JupiterError where
  | RequestFailed (status_code : Nat) (msg : String)
  | ApiError (code : String) (msg : String)
deriving DecidableEq, Repr

/-- A raw HTTP response as the classifier consumes it: the status code,
and the body. `bytes` models `response.bytes().await` followed by
`serde_json::from_slice`: the outer `Except String` is a body-read
failure (with the transport error message), the inner `Except String
Json` is the parse outcome of the delivered bytes. -/
structure Response where
  status : Nat
  bytes : Except String (Except String Json)

/-- Embedding of `check_status_code_and_deserialize` (lib.rs lines
33-75). `decode` stands for the typed `serde_json::from_value::<T>`
of the `DeserializeOwned` target; an `Except.error` carries the decode
error description. The steps mirror the source: body read, JSON parse,
the string-valued "error" field check with the stringified "errorCode"
(defaulting to the empty string), then the typed decode. -/
def check_status_code_and_deserialize {T : Type} (decode : Json → Except String T)
    (response : Response) : Except JupiterError T :=
  let status := response.status
  match response.bytes with
  | .error e => .error (.RequestFailed status e)
  | .ok parseResult =>
    match parseResult with
    | .error e => .error (.RequestFailed status e)
    | .ok json_value =>
      match (json_value.get "error").bind Json.as_str with
      | some error_msg =>
          let error_code := ((json_value.get "errorCode").map Json.to_string).getD ""
          .error (.ApiError error_code error_msg)
      | none =>
          match decode json_value with
          | .ok v => .ok v
          | .error e => .error (.RequestFailed status e)

/-- The wire-level request that an operation hands to the transport
collaborator (reqwest): HTTP method, URL, accumulated query pairs, and
the optional JSON body. -/
structure WireRequest where
  method : String
  url : String
  query : List (String × String)
  body : Option Json

/-- Embedding of `struct JupiterSwapApiClient`: it holds the base path.
The reusable reqwest client handle performs the network send; that
external capability is passed to each operation below as its
`transport` argument. -/
structure JupiterSwapApiClient where
  base_path : String

/-- `reqwest::StatusCode::INTERNAL_SERVER_ERROR`, the sentinel status
attached by all three operations to a transport-level send failure. -/
def INTERNAL_SERVER_ERROR : Nat := 500

/-- Modelled from the spec: the quote module (`QuoteRequest`,
`InternalQuoteRequest` and their serde serialization) is repository code
that is not under src. Per the spec (sections 3 and 4.1) a quote request
is a typed structure of modeled fields plus an open-ended
string-to-string map of extra arguments; each part is represented here
by its serialized query key-value list. `modeled_fields` stands for the
serde_urlencoded output of `InternalQuoteRequest::from(request)` (one
pair per serialized modeled field, with pairwise distinct field names);
`quote_args` holds the pairs of the extra-arguments map (distinct keys,
being a map). -/
structure QuoteRequest where
  modeled_fields : List (String × String)
  quote_args : List (String × String)

/-- The wire request built by `JupiterSwapApiClient::quote` (lib.rs
lines 86-93): GET on `base_path/quote`; the two successive reqwest
`.query` calls append first the serialized modeled fields of
`InternalQuoteRequest` and then the extra arguments to the query
string. -/
def buildQuoteWire (base_path : String) (q : QuoteRequest) : WireRequest :=
  ⟨"GET", base_path ++ "/quote", q.modeled_fields ++ q.quote_args, none⟩

/-- The wire request built by `JupiterSwapApiClient::swap` (lib.rs lines
108-113): POST on `base_path/swap`, the optional extra arguments placed
on the query string (a `none` bag contributes no pairs), and the
JSON-serialized swap request as the body (`.json(swap_request)`). The
`SwapRequest` type lives in the swap module, not under src; the request
is represented by its JSON serialization. -/
def buildSwapWire (base_path : String) (swap_request : Json)
    (extra_args : Option (List (String × String))) : WireRequest :=
  ⟨"POST", base_path ++ "/swap", extra_args.getD [], some swap_request⟩

/-- The wire request built by `JupiterSwapApiClient::swap_instructions`
(lib.rs lines 126-130): POST on `base_path/swap-instructions` with the
JSON-serialized swap request as the body and no query parameters. -/
def buildSwapInstructionsWire (base_path : String) (swap_request : Json) : WireRequest :=
  ⟨"POST", base_path ++ "/swap-instructions", [], some swap_request⟩

/-- Embedding of `JupiterSwapApiClient::quote` (lib.rs lines 85-101).
`transport` is the reqwest send capability: it returns the raw response
or a transport-level error description. A send error maps to
`RequestFailed` with the `INTERNAL_SERVER_ERROR` sentinel; a delivered
response goes to the classifier. `decode` stands for the typed
deserialization of `QuoteResponse` (defined in the quote module, not
under src). -/
def JupiterSwapApiClient.quote {T : Type} (self : JupiterSwapApiClient)
    (decode : Json → Except String T)
    (transport : WireRequest → Except String Response)
    (quote_request : QuoteRequest) : Except JupiterError T :=
  match transport (buildQuoteWire self.base_path quote_request) with
  | .error e => .error (.RequestFailed INTERNAL_SERVER_ERROR e)
  | .ok response => check_status_code_and_deserialize decode response

/-- Embedding of `JupiterSwapApiClient::swap` (lib.rs lines 103-120),
with the same transport and decode conventions as `quote`; `decode`
stands for the typed deserialization of `SwapResponse`. -/
def JupiterSwapApiClient.swap {T : Type} (self : JupiterSwapApiClient)
    (decode : Json → Except String T)
    (transport : WireRequest → Except String Response)
    (swap_request : Json)
    (extra_args : Option (List (String × String))) : Except JupiterError T :=
  match transport (buildSwapWire self.base_path swap_request extra_args) with
  | .error e => .error (.RequestFailed INTERNAL_SERVER_ERROR e)
  | .ok response => check_status_code_and_deserialize decode response

/-- Embedding of `JupiterSwapApiClient::swap_instructions` (lib.rs
lines 122-139): the classifier runs with the typed decode of the
internal wire type `SwapInstructionsResponseInternal` (`decodeInternal`
here), and a success is then mapped through the internal-to-public
conversion `Into::into` (`intoPublic` here) by `.map(Into::into)`. Both
the internal type and its conversion live in the swap module, not under
src, so they are abstract parameters here. -/
def JupiterSwapApiClient.swap_instructions {I P : Type}
    (self : JupiterSwapApiClient)
    (decodeInternal : Json → Except String I) (intoPublic : I → P)
    (transport : WireRequest → Except String Response)
    (swap_request : Json) : Except JupiterError P :=
  match transport (buildSwapInstructionsWire self.base_path swap_request) with
  | .error e => .error (.RequestFailed INTERNAL_SERVER_ERROR e)
  | .ok response =>
      (check_status_code_and_deserialize decodeInternal response).map intoPublic

/-- Number of times the key `k` occurs in a list of query pairs. -/
def countKey (k : String) (q : List (String × String)) : Nat :=
  (q.map Prod.fst).count k

/-- A sample typed decoder playing the role of
`serde_json::from_value::<T>` for a success schema with one required
integral field "foo"; it instantiates the generic classifier theorems
at concrete inputs. -/
def decodeFooInt : Json → Except String Int := fun j =>
  match j.get "foo" with
  | some (.num n) => .ok n
  | some _ => .error "invalid type for field foo"
  | none => .error "missing field foo"

/-- C1: whenever the parsed body has a string-valued "error" field, the
classifier returns ApiError with that string as the message (and the
stringified adjacent "errorCode", empty when absent, as the code), for
every HTTP status code — never Success. -/
theorem C1_string_error_field_always_classifies_ApiError :
    ∀ (T : Type) (decode : Json → Except String T) (status : Nat)
      (json_value : Json) (msg : String),
    (json_value.get "error").bind Json.as_str = some msg →
    check_status_code_and_deserialize decode ⟨status, .ok (.ok json_value)⟩ =
      .error (.ApiError (((json_value.get "errorCode").map Json.to_string).getD "") msg) := by
  intro T decode status json_value msg h
  simp [check_status_code_and_deserialize, h]

/-- C1 witness: the body with error "no route found" and errorCode 42,
at HTTP status 200, classifies as ApiError with code "42". -/
theorem C1_witness :
    check_status_code_and_deserialize decodeFooInt
        ⟨200, .ok (.ok (.obj [("error", .str "no route found"), ("errorCode", .num 42)]))⟩ =
      .error (.ApiError "42" "no route found") :=
  C1_string_error_field_always_classifies_ApiError Int decodeFooInt 200
    (.obj [("error", .str "no route found"), ("errorCode", .num 42)]) "no route found" rfl

/-- C5: a body whose bytes fail to parse as JSON classifies as
RequestFailed carrying the original status code and the parse error
description, whatever the status code. -/
theorem C5_parse_failure_is_RequestFailed :
    ∀ (T : Type) (decode : Json → Except String T) (status : Nat) (e : String),
    check_status_code_and_deserialize decode ⟨status, .ok (.error e)⟩ =
      .error (.RequestFailed status e) := by
  intro T decode status e
  rfl

/-- C8: every parsed body whose "error" field is a string and which has
no "errorCode" field classifies as ApiError with the empty string as
code and that string as message, for every status and decoder. -/
theorem C8_missing_errorCode_defaults_to_empty_code :
    ∀ (T : Type) (decode : Json → Except String T) (status : Nat)
      (json_value : Json) (msg : String),
    json_value.get "error" = some (.str msg) →
    json_value.get "errorCode" = none →
    check_status_code_and_deserialize decode ⟨status, .ok (.ok json_value)⟩ =
      .error (.ApiError "" msg) := by
  intro T decode status json_value msg hmsg hcode
  simp [check_status_code_and_deserialize, hmsg, hcode, Json.as_str]

/-- C8 witness: the body consisting of only an error field with the
string "x" classifies as ApiError with empty code and message "x". -/
theorem C8_witness :
    check_status_code_and_deserialize decodeFooInt
        ⟨200, .ok (.ok (.obj [("error", .str "x")]))⟩ =
      .error (.ApiError "" "x") :=
  C8_missing_errorCode_defaults_to_empty_code Int decodeFooInt 200
    (.obj [("error", .str "x")]) "x" rfl rfl

/-- C4: a parsed body with no string-valued "error" field whose typed
decode fails classifies as RequestFailed with the status code and the
decode error description — never any Success value. -/
theorem C4_decode_failure_is_RequestFailed :
    ∀ (T : Type) (decode : Json → Except String T) (status : Nat)
      (json_value : Json) (e : String),
    (json_value.get "error").bind Json.as_str = none →
    decode json_value = .error e →
    check_status_code_and_deserialize decode ⟨status, .ok (.ok json_value)⟩ =
      .error (.RequestFailed status e) := by
  intro T decode status json_value e h hd
  simp [check_status_code_and_deserialize, h, hd]

/-- C4 witness: a body lacking the required "foo" field of the sample
success schema decodes to RequestFailed with the decode error. -/
theorem C4_witness :
    check_status_code_and_deserialize decodeFooInt ⟨200, .ok (.ok (.obj [("bar", .num 1)]))⟩ =
      .error (.RequestFailed 200 "missing field foo") :=
  C4_decode_failure_is_RequestFailed Int decodeFooInt 200 (.obj [("bar", .num 1)])
    "missing field foo" rfl rfl

/-- C10: when the "error" field is present but not a JSON string, the
ApiError branch does not fire: the outcome is exactly the typed decode
result (Success on decode success, RequestFailed with the decode error
otherwise). -/
theorem C10_non_string_error_field_falls_through :
    ∀ (T : Type) (decode : Json → Except String T) (status : Nat)
      (json_value : Json) (v : Json),
    json_value.get "error" = some v →
    v.as_str = none →
    check_status_code_and_deserialize decode ⟨status, .ok (.ok json_value)⟩ =
      (match decode json_value with
       | .ok t => .ok t
       | .error e => .error (.RequestFailed status e)) := by
  intro T decode status json_value v hv hs
  simp [check_status_code_and_deserialize, hv, hs]

/-- C10 witness: a body with a numeric "error" field and a valid "foo"
field decodes to Success 3, not ApiError. -/
theorem C10_witness :
    check_status_code_and_deserialize decodeFooInt
        ⟨200, .ok (.ok (.obj [("error", .num 7), ("foo", .num 3)]))⟩ = .ok 3 :=
  C10_non_string_error_field_falls_through Int decodeFooInt 200
    (.obj [("error", .num 7), ("foo", .num 3)]) (.num 7) rfl rfl

/-- C3 counterexample: with body error "m" and errorCode the JSON string
"42", the classifier stringifies the errorCode with
serde_json::Value::to_string, which serializes a JSON string WITH its
surrounding quotes; the resulting code is the four characters \x22 4 2
\x22 and not the plain content "42" the claim states. -/
theorem C3_counterexample :
    check_status_code_and_deserialize decodeFooInt
        ⟨200, .ok (.ok (.obj [("error", .str "m"), ("errorCode", .str "42")]))⟩ =
      .error (.ApiError "\"42\"" "m") ∧
    check_status_code_and_deserialize decodeFooInt
        ⟨200, .ok (.ok (.obj [("error", .str "m"), ("errorCode", .str "42")]))⟩ ≠
      .error (.ApiError "42" "m") := by
  refine ⟨rfl, ?_⟩
  intro h
  rw [show check_status_code_and_deserialize decodeFooInt
        ⟨200, .ok (.ok (.obj [("error", .str "m"), ("errorCode", .str "42")]))⟩ =
      .error (.ApiError "\"42\"" "m") from rfl] at h
  injection h with h1
  injection h1 with h2 h3
  exact absurd h2 (by decide)

/-- C3 amended: the ApiError code is the serde_json Display (to_string)
serialization of the adjacent "errorCode" value, for any original JSON
type; a JSON number 42 yields the bare decimal digits "42", while a JSON
string yields its JSON representation including the surrounding quote
characters, not the plain string content. -/
theorem C3_errorCode_stringified_via_Display :
    (∀ (T : Type) (decode : Json → Except String T) (status : Nat)
       (json_value : Json) (msg : String) (v : Json),
     json_value.get "error" = some (.str msg) →
     json_value.get "errorCode" = some v →
     check_status_code_and_deserialize decode ⟨status, .ok (.ok json_value)⟩ =
       .error (.ApiError v.to_string msg)) ∧
    Json.to_string (.num 42) = "42" ∧
    Json.to_string (.str "42") = "\"42\"" := by
  refine ⟨?_, rfl, rfl⟩
  intro T decode status json_value msg v hmsg hcode
  simp [check_status_code_and_deserialize, hmsg, hcode, Json.as_str]

/-- C3 witness: instantiating the amended statement at a body carrying a
string-typed errorCode produces the quoted code. -/
theorem C3_witness :
    check_status_code_and_deserialize decodeFooInt
        ⟨404, .ok (.ok (.obj [("error", .str "m"), ("errorCode", .str "42")]))⟩ =
      .error (.ApiError "\"42\"" "m") :=
  C3_errorCode_stringified_via_Display.1 Int decodeFooInt 404
    (.obj [("error", .str "m"), ("errorCode", .str "42")]) "m" (.str "42") rfl rfl

/-- C6: when the transport send fails before any response arrives, each
of the three operations returns RequestFailed carrying the
INTERNAL_SERVER_ERROR sentinel (500) and the transport error
description; no other outcome shape arises. -/
theorem C6_transport_failure_maps_to_sentinel :
    ∀ (T I P : Type) (decode : Json → Except String T)
      (decodeInternal : Json → Except String I) (intoPublic : I → P)
      (self : JupiterSwapApiClient) (q : QuoteRequest) (body : Json)
      (extra_args : Option (List (String × String))) (e : String),
    self.quote decode (fun _ => .error e) q =
      .error (.RequestFailed INTERNAL_SERVER_ERROR e) ∧
    self.swap decode (fun _ => .error e) body extra_args =
      .error (.RequestFailed INTERNAL_SERVER_ERROR e) ∧
    self.swap_instructions decodeInternal intoPublic (fun _ => .error e) body =
      .error (.RequestFailed INTERNAL_SERVER_ERROR e) ∧
    INTERNAL_SERVER_ERROR = 500 := by
  intro T I P decode decodeInternal intoPublic self q body extra_args e
  exact ⟨rfl, rfl, rfl, rfl⟩

/-- C7: swap_instructions first decodes the body with the internal wire
decoder and, on success, returns exactly the internal-to-public
conversion applied to the decoded wire value. -/
theorem C7_swap_instructions_converts_decoded_internal :
    ∀ (I P : Type) (decodeInternal : Json → Except String I) (intoPublic : I → P)
      (transport : WireRequest → Except String Response)
      (self : JupiterSwapApiClient) (swap_request : Json) (r : Response) (w : I),
    transport (buildSwapInstructionsWire self.base_path swap_request) = .ok r →
    check_status_code_and_deserialize decodeInternal r = .ok w →
    self.swap_instructions decodeInternal intoPublic transport swap_request =
      .ok (intoPublic w) := by
  intro I P decodeInternal intoPublic transport self swap_request r w ht hc
  simp [JupiterSwapApiClient.swap_instructions, ht, hc, Except.map]

/-- Modelled from the spec: `SwapInstructionsResponseInternal` lives in
the swap module, repository code not under src. Per the spec (section 3)
the wire representation carries account and program identifiers
binary-encoded as text; this minimal wire shape, used only to exercise
the generic operation theorems on concrete data, keeps the program
identifier of the swap instruction as text. -/
structure SwapInstructionsResponseInternal where
  swap_instruction_program_id : String
deriving DecidableEq, Repr

/-- Modelled from the spec: the public `SwapInstructionsResponse`, with
the text-encoded identifier decoded into structured bytes. -/
structure SwapInstructionsResponse where
  swap_instruction_program_id : List Nat
deriving DecidableEq, Repr

/-- Modelled from the spec: the pure, total internal-to-public adapter
(the Into impl of the swap module), decoding the text-encoded
identifier. -/
def swapInstructionsIntoPublic (i : SwapInstructionsResponseInternal) :
    SwapInstructionsResponse :=
  ⟨i.swap_instruction_program_id.toList.map Char.toNat⟩

/-- A sample typed decoder for the modelled internal wire schema. -/
def decodeSwapInstructionsInternal :
    Json → Except String SwapInstructionsResponseInternal := fun j =>
  match j.get "swapInstructionProgramId" with
  | some (.str s) => .ok ⟨s⟩
  | some _ => .error "invalid type for field swapInstructionProgramId"
  | none => .error "missing field swapInstructionProgramId"

/-- C7 witness: on a concrete wire body the operation returns exactly
the adapter applied to the decoded internal value. -/
theorem C7_witness :
    JupiterSwapApiClient.swap_instructions ⟨"base"⟩ decodeSwapInstructionsInternal
        swapInstructionsIntoPublic
        (fun _ => .ok ⟨200, .ok (.ok (.obj [("swapInstructionProgramId", .str "AB")]))⟩)
        (.obj []) =
      .ok ⟨[65, 66]⟩ :=
  C7_swap_instructions_converts_decoded_internal
    SwapInstructionsResponseInternal SwapInstructionsResponse
    decodeSwapInstructionsInternal swapInstructionsIntoPublic
    (fun _ => .ok ⟨200, .ok (.ok (.obj [("swapInstructionProgramId", .str "AB")]))⟩)
    ⟨"base"⟩ (.obj []) ⟨200, .ok (.ok (.obj [("swapInstructionProgramId", .str "AB")]))⟩
    ⟨"AB"⟩ rfl rfl

/-- C9: the swap operation sends POST to base/swap with the
JSON-serialized request as body and the optional extra arguments only on
the query string, and swap_instructions sends POST to
base/swap-instructions with the JSON body and an empty query. -/
theorem C9_swap_and_swap_instructions_wire_shape :
    ∀ (base : String) (swap_request : Json) (extra : List (String × String)),
    buildSwapWire base swap_request (some extra) =
      ⟨"POST", base ++ "/swap", extra, some swap_request⟩ ∧
    buildSwapWire base swap_request none =
      ⟨"POST", base ++ "/swap", [], some swap_request⟩ ∧
    buildSwapInstructionsWire base swap_request =
      ⟨"POST", base ++ "/swap-instructions", [], some swap_request⟩ := by
  intro base swap_request extra
  exact ⟨rfl, rfl, rfl⟩

/-- Occurrences of a key in an appended query are the sums per part. -/
theorem countKey_append (k : String) (a b : List (String × String)) :
    countKey k (a ++ b) = countKey k a + countKey k b := by
  simp [countKey]

/-- A key absent from a pair list occurs zero times. -/
theorem countKey_eq_zero_of_not_mem (k : String) (l : List (String × String))
    (h : k ∉ l.map Prod.fst) : countKey k l = 0 := by
  simp [countKey, List.count_eq_zero, h]

/-- A key of a duplicate-free pair list occurs exactly once. -/
theorem countKey_eq_one_of_nodup_mem (k : String) (l : List (String × String))
    (hd : (l.map Prod.fst).Nodup) (h : k ∈ l.map Prod.fst) : countKey k l = 1 :=
  List.count_eq_one_of_mem hd h

/-- C2 counterexample: a key present both among the serialized modeled
fields and in the extra-arguments map is emitted twice in the quote
query string, because the two reqwest query calls append both pair
lists; this contradicts the claim that serialization does not emit such
a key twice. -/
theorem C2_counterexample :
    (buildQuoteWire "b" ⟨[("amount", "1")], [("amount", "2")]⟩).query =
      [("amount", "1"), ("amount", "2")] ∧
    countKey "amount" (buildQuoteWire "b" ⟨[("amount", "1")], [("amount", "2")]⟩).query = 2 :=
  ⟨rfl, rfl⟩

/-- C2 amended: with duplicate-free modeled field names and extra-args
keys, a key found in exactly one of the two parts appears exactly once
in the quote query string, and a key present in both parts appears
exactly twice (once contributed by each part) — it is not dropped, but
it is duplicated. -/
theorem C2_quote_query_key_counts :
    ∀ (base : String) (q : QuoteRequest),
    (q.modeled_fields.map Prod.fst).Nodup →
    (q.quote_args.map Prod.fst).Nodup →
    (∀ k, k ∈ q.modeled_fields.map Prod.fst → k ∉ q.quote_args.map Prod.fst →
       countKey k (buildQuoteWire base q).query = 1) ∧
    (∀ k, k ∉ q.modeled_fields.map Prod.fst → k ∈ q.quote_args.map Prod.fst →
       countKey k (buildQuoteWire base q).query = 1) ∧
    (∀ k, k ∈ q.modeled_fields.map Prod.fst → k ∈ q.quote_args.map Prod.fst →
       countKey k (buildQuoteWire base q).query = 2) := by
  intro base q hm hx
  have hq : (buildQuoteWire base q).query = q.modeled_fields ++ q.quote_args := rfl
  refine ⟨?_, ?_, ?_⟩ <;> intro k h1 h2 <;> rw [hq, countKey_append]
  · rw [countKey_eq_one_of_nodup_mem k _ hm h1, countKey_eq_zero_of_not_mem k _ h2]
  · rw [countKey_eq_zero_of_not_mem k _ h1, countKey_eq_one_of_nodup_mem k _ hx h2]
  · rw [countKey_eq_one_of_nodup_mem k _ hm h1, countKey_eq_one_of_nodup_mem k _ hx h2]

/-- C2 witness: on a concrete request with two modeled fields and one
non-overlapping extra argument every key appears once, and on a request
whose extra argument collides with a modeled field the shared key
appears twice. -/
theorem C2_witness :
    countKey "amount"
      (buildQuoteWire "b" ⟨[("inputMint", "So1"), ("amount", "5")], [("dexes", "X")]⟩).query = 1 ∧
    countKey "dexes"
      (buildQuoteWire "b" ⟨[("inputMint", "So1"), ("amount", "5")], [("dexes", "X")]⟩).query = 1 ∧
    countKey "amount"
      (buildQuoteWire "b" ⟨[("amount", "5")], [("amount", "7")]⟩).query = 2 := by
  refine ⟨?_, ?_, ?_⟩
  · exact (C2_quote_query_key_counts "b"
      ⟨[("inputMint", "So1"), ("amount", "5")], [("dexes", "X")]⟩
      (by decide) (by decide)).1 "amount" (by decide) (by decide)
  · exact (C2_quote_query_key_counts "b"
      ⟨[("inputMint", "So1"), ("amount", "5")], [("dexes", "X")]⟩
      (by decide) (by decide)).2.1 "dexes" (by decide) (by decide)
  · exact (C2_quote_query_key_counts "b"
      ⟨[("amount", "5")], [("amount", "7")]⟩
      (by decide) (by decide)).2.2 "amount" (by decide) (by decide)
